import Mathlib

/-!
Shallow embedding of the market-heatmap return engine (src/market.py).

Python dates are modelled as proleptic-Gregorian year/month/day triples with
day arithmetic through the civil-calendar day-number conversion (the semantics
of datetime.date plus/minus timedelta).  pandas timestamps are modelled as a
wall-clock minute count together with an optional timezone tag; NaN / NaT /
None are modelled as Option.none.  Prices are rationals; a missing price cell
is Option.none.  Fallible code returns Except String, the error string naming
the Python exception class; in particular to_ny_aware converts a
datetime.date into a plain datetime (market.py line 61) and then reads dt.tz
(line 64), an attribute plain datetime objects do not have, so every
date-typed input raises AttributeError.  Every function below is translated
from the corresponding function of src/market.py, including these error
paths.
-/

namespace Heatmap

/-- Proleptic Gregorian calendar date, as Python datetime.date. -/
structure Date where
  year : Int
  month : Int
  day : Int
deriving DecidableEq

/-- Day number of a civil date (Hinnant's days_from_civil, epoch 0000-03-01).
This is the semantics of Python date.toordinal up to a constant shift. -/
def daysFromCivil (dt : Date) : Int :=
  let y : Int := if dt.month ≤ 2 then dt.year - 1 else dt.year
  let era : Int := y / 400
  let yoe : Int := y - era * 400
  let mp : Int := (dt.month + 9) % 12
  let doy : Int := (153 * mp + 2) / 5 + dt.day - 1
  let doe : Int := yoe * 365 + yoe / 4 - yoe / 100 + doy
  era * 146097 + doe

/-- Civil date of a day number (Hinnant's civil_from_days); the semantics of
Python date.fromordinal up to the same constant shift. -/
def civilFromDays (z : Int) : Date :=
  let era : Int := z / 146097
  let doe : Int := z - era * 146097
  let yoe : Int := (doe - doe / 1460 + doe / 36524 - doe / 146096) / 365
  let y : Int := yoe + era * 400
  let doy : Int := doe - (365 * yoe + yoe / 4 - yoe / 100)
  let mp : Int := (5 * doy + 2) / 153
  let d : Int := doy - (153 * mp + 2) / 5 + 1
  let m : Int := if mp < 10 then mp + 3 else mp - 9
  ⟨if m ≤ 2 then y + 1 else y, m, d⟩

/-- Python date minus timedelta(days = k). -/
def subDays (d : Date) (k : Int) : Date := civilFromDays (daysFromCivil d - k)

/-- Python date plus timedelta(days = k). -/
def addDays (d : Date) (k : Int) : Date := civilFromDays (daysFromCivil d + k)

/-- quarter_start from src/market.py: q = (month - 1) // 3 + 1;
date(year, 3 * (q - 1) + 1, 1).  A pure date construction; it does not touch
to_ny_aware and cannot raise. -/
def quarter_start (today : Date) : Date :=
  let month := today.month
  let q := (month - 1) / 3 + 1
  ⟨today.year, 3 * (q - 1) + 1, 1⟩

/-- Timezone tag: America/New_York or some other zone with its UTC offset in
minutes.  The NY offset value itself is irrelevant to every claim. -/
inductive Tz
  | ny
  | other (offsetMinutes : Int)
deriving DecidableEq

/-- UTC offset in minutes of a timezone tag. -/
def tzOffset : Tz → Int
  | .ny => -300
  | .other o => o

/-- pandas Timestamp: wall-clock minute count plus optional timezone
(none = naive).  Only pd.Timestamp carries the .tz attribute the source
reads. -/
structure PdTimestamp where
  wall : Int
  tz : Option Tz
deriving DecidableEq

/-- Possible Python inputs to to_ny_aware at its call sites: None, a string
(already run through pd.to_datetime, which yields NaT = none or a
pd.Timestamp), a datetime.date, the NaT scalar, or a pd.Timestamp.  A naive
plain datetime input would behave like the date case (no .tz attribute); no
call site of the repository passes one, so it is not a separate
constructor. -/
inductive Dt
  | pynone
  | str (parsed : Option PdTimestamp)
  | pydate (d : Date)
  | nat_
  | ts (t : PdTimestamp)
deriving DecidableEq

/-- tz_localize(NY) on a naive timestamp: the wall clock is reinterpreted as
being in NY. -/
def localizeNY (t : PdTimestamp) : PdTimestamp := ⟨t.wall, some Tz.ny⟩

/-- tz_convert(NY) on an aware timestamp: the instant is preserved, the wall
clock is shifted by the offset difference. -/
def convertNY (t : PdTimestamp) (z : Tz) : PdTimestamp :=
  ⟨t.wall - tzOffset z + tzOffset Tz.ny, some Tz.ny⟩

/-- Branch on dt.tz, as the final if/else of to_ny_aware. -/
def normalizeNY (t : PdTimestamp) : PdTimestamp :=
  match t.tz with
  | none => localizeNY t
  | some z => convertNY t z

/-- to_ny_aware from src/market.py.  None returns None (line 57); strings go
through pd.to_datetime, whose NaT result is caught by pd.isna (line 62) and
whose Timestamp result carries .tz; the NaT scalar is caught by pd.isna; a
pd.Timestamp is localized or converted (lines 64-67).  A datetime.date is
first converted to a PLAIN datetime (line 61), which has no .tz attribute,
so line 64 raises AttributeError. -/
def to_ny_aware : Dt → Except String (Option PdTimestamp)
  | .pynone => .ok none
  | .str none => .ok none
  | .str (some t) => .ok (some (normalizeNY t))
  | .pydate _ => .error "AttributeError"
  | .nat_ => .ok none
  | .ts t => .ok (some (normalizeNY t))

/-- A fetched price history: index of NY-aware timestamps (wall minutes) with
the Close cell of each row (none = NaN), plus whether a Close column exists. -/
structure DataFrame where
  rows : List (Int × Option ℚ)
  hasClose : Bool
deriving DecidableEq

/-- pd.DataFrame(): no rows, no Close column. -/
def emptyDF : DataFrame := ⟨[], false⟩

/-- nearest_price from src/market.py.  An empty frame or a None target gives
NaN; otherwise the Close cell at the maximal timestamp at most the target is
looked up with hist_df.loc[closest, "Close"], which raises KeyError when the
frame has no Close column; a target whose normalization raises (a
datetime.date) propagates that error. -/
def nearest_price (hist_df : DataFrame) (target_date : Dt) :
    Except String (Option ℚ) :=
  if hist_df.rows = [] then .ok none
  else
    match to_ny_aware target_date with
    | .error e => .error e
    | .ok none => .ok none
    | .ok (some target) =>
      let past := hist_df.rows.filter fun p => decide (p.1 ≤ target.wall)
      match (past.map Prod.fst).max? with
      | none => .ok none
      | some closest =>
        if hist_df.hasClose = true then
          match hist_df.rows.find? fun p => decide (p.1 = closest) with
          | some p => .ok p.2
          | none => .ok none
        else .error "KeyError"

/-- Floor of a rational as an integer (kernel-computable). -/
def ratFloor (x : ℚ) : Int := Int.fdiv x.num x.den

/-- Python round() to an integer: round half to even. -/
def pyRound (x : ℚ) : Int :=
  let f : Int := ratFloor x
  if x - f < 1 / 2 then f
  else if (1 : ℚ) / 2 < x - f then f + 1
  else if f % 2 = 0 then f else f + 1

/-- Python round(x, nd). -/
def roundTo (x : ℚ) (nd : Nat) : ℚ := (pyRound (x * 10 ^ nd) : ℚ) / 10 ^ nd

/-- One period cell of compute_changes:
round((x / y - 1) * 100, 2) if pd.notna(x) and pd.notna(y) and y != 0 else nan. -/
def pct_cell (x y : Option ℚ) : Option ℚ :=
  match x, y with
  | some a, some b => if b ≠ 0 then some (roundTo ((a / b - 1) * 100) 2) else none
  | _, _ => none

/-- ASSETS from src/market.py, in insertion order. -/
def ASSETS : List (String × String) :=
  [("美元指數", "DX-Y.NYB"),
   ("2年美債收益率", "^IRX"),
   ("10年美債收益率", "^TNX"),
   ("TLT(長期美債ETF)", "TLT"),
   ("S&P500", "^GSPC"),
   ("那斯達克", "^IXIC"),
   ("道瓊工業", "^DJI"),
   ("羅素2000", "^RUT"),
   ("VIX(恐慌指數)", "^VIX"),
   ("黃金期貨", "GC=F"),
   ("WTI原油", "CL=F"),
   ("REITs指數ETF", "VNQ"),
   ("科技ETF", "XLK"),
   ("醫療ETF", "XLV"),
   ("金融ETF", "XLF"),
   ("能源ETF", "XLE"),
   ("非必需消費ETF", "XLY"),
   ("公用事業ETF", "XLU"),
   ("必需消費ETF", "XLP"),
   ("標普成長ETF", "SPYG"),
   ("標普價值ETF", "SPYV"),
   ("標普500 ETF", "SPY"),
   ("那斯達克100(大型科技)", "QQQ")]

/-- The six reference anchors of compute_changes, as they would be bound by
lines 127-132 had the normalization succeeded. -/
structure Anchors where
  one_day : Option PdTimestamp
  one_week : Option PdTimestamp
  one_month : Option PdTimestamp
  one_year : Option PdTimestamp
  q_start : Option PdTimestamp
  y_start : Option PdTimestamp
deriving DecidableEq

/-- Python passes the anchor (a Timestamp or None) to nearest_price. -/
def optDt : Option PdTimestamp → Dt
  | none => .pynone
  | some t => .ts t

/-- latest = hist["Close"].iloc[-1] in the guarded branch of compute_changes;
nan when the frame is empty or has no Close column. -/
def latestClose (hist : DataFrame) : Option ℚ :=
  if hist.rows = [] ∨ hist.hasClose = false then none
  else
    match hist.rows.getLast? with
    | some p => p.2
    | none => none

/-- One output record of compute_changes. -/
structure Row where
  name : String
  ticker : String
  close : Option ℚ
  chg_1d : Option ℚ
  chg_1w : Option ℚ
  chg_1m : Option ℚ
  chg_1y : Option ℚ
  chg_qtd : Option ℚ
  chg_ytd : Option ℚ
deriving DecidableEq

/-- The loop body of compute_changes (lines 134-157) for one (name, ticker)
pair: hist = hist_map.get(tk, pd.DataFrame()); every value nan when the frame
is empty or lacks a Close column; otherwise the six nearest_price lookups run
in source order, any exception of theirs propagating out of the loop. -/
def rowE (a : Anchors) (hist_map : String → Option DataFrame)
    (p : String × String) : Except String Row := do
  let hist := (hist_map p.2).getD emptyDF
  if hist.rows = [] ∨ hist.hasClose = false then
    return ⟨p.1, p.2, none, none, none, none, none, none, none⟩
  else
    let latest := latestClose hist
    let p_1d ← nearest_price hist (optDt a.one_day)
    let p_1w ← nearest_price hist (optDt a.one_week)
    let p_1m ← nearest_price hist (optDt a.one_month)
    let p_1y ← nearest_price hist (optDt a.one_year)
    let p_qtd ← nearest_price hist (optDt a.q_start)
    let p_ytd ← nearest_price hist (optDt a.y_start)
    return { name := p.1
             ticker := p.2
             close := latest.map (fun q => roundTo q 4)
             chg_1d := pct_cell latest p_1d
             chg_1w := pct_cell latest p_1w
             chg_1m := pct_cell latest p_1m
             chg_1y := pct_cell latest p_1y
             chg_qtd := pct_cell latest p_qtd
             chg_ytd := pct_cell latest p_ytd }

/-- compute_changes from src/market.py (lines 121-160).  today stands for the
date.today() read at entry.  Line 124 normalizes today — a datetime.date —
and lines 127-132 normalize the six date-typed anchors, so the very first
to_ny_aware call raises AttributeError and the per-asset loop is never
reached. -/
def compute_changes (today : Date) (hist_map : String → Option DataFrame) :
    Except String (List Row) := do
  let _ ← to_ny_aware (.pydate today)
  let one_day ← to_ny_aware (.pydate (subDays today 1))
  let one_week ← to_ny_aware (.pydate (subDays today 7))
  let one_month ← to_ny_aware (.pydate (subDays today 30))
  let one_year ← to_ny_aware (.pydate (subDays today 365))
  let q_start ← to_ny_aware (.pydate (quarter_start today))
  let y_start ← to_ny_aware (.pydate ⟨today.year, 1, 1⟩)
  ASSETS.mapM
    (rowE ⟨one_day, one_week, one_month, one_year, q_start, y_start⟩ hist_map)

/-- fetch_history from src/market.py (lines 71-96) over an abstract provider.
start_date is the sidebar date and today stands for date.today(); lines 73-74
normalize both — datetime.date values — so to_ny_aware raises AttributeError
before the per-ticker loop.  The loop itself is a per-ticker try/except that
stores the fetched frame on success and an empty frame when the fetch
raises. -/
def fetch_history (fetch : String → Except String DataFrame)
    (start_date today : Date) (tickers : List String) :
    Except String (List (String × DataFrame)) := do
  let _ ← to_ny_aware (.pydate start_date)
  let _ ← to_ny_aware (.pydate (addDays today 1))
  return tickers.map fun tk =>
    (tk, match fetch tk with
         | .ok h => h
         | .error _ => emptyDF)

/-- Modelled from the spec: the priority ordering the spec ascribes to the
snapshot build ("a caller-supplied priority list places known instruments
first in a fixed order, unlisted instruments follow in their configured
(insertion) order").  No such parameter exists in compute_changes; this
definition exists only to compare the spec's ordering with the code's. -/
def prioritySort (priority names : List String) : List String :=
  priority.filter (fun x => decide (x ∈ names)) ++
    names.filter (fun x => decide (x ∉ priority))

/-! Helper lemmas. -/

theorem normalizeNY_tz (u : PdTimestamp) : (normalizeNY u).tz = some Tz.ny := by
  rcases u with ⟨w, tz⟩
  cases tz <;> rfl

theorem to_ny_aware_tz {d : Dt} {t : PdTimestamp}
    (h : to_ny_aware d = .ok (some t)) : t.tz = some Tz.ny := by
  cases d with
  | pynone => exact Option.noConfusion (Except.ok.inj h)
  | str p =>
    cases p with
    | none => exact Option.noConfusion (Except.ok.inj h)
    | some u =>
      have h2 : normalizeNY u = t := Option.some.inj (Except.ok.inj h)
      rw [← h2]; exact normalizeNY_tz u
  | pydate d => exact Except.noConfusion h
  | nat_ => exact Option.noConfusion (Except.ok.inj h)
  | ts u =>
    have h2 : normalizeNY u = t := Option.some.inj (Except.ok.inj h)
    rw [← h2]; exact normalizeNY_tz u

theorem normalizeNY_of_ny {u : PdTimestamp} (h : u.tz = some Tz.ny) :
    normalizeNY u = u := by
  rcases u with ⟨w, tz⟩
  simp only at h
  subst h
  show PdTimestamp.mk (w - tzOffset Tz.ny + tzOffset Tz.ny) (some Tz.ny) = ⟨w, some Tz.ny⟩
  have hw : w - tzOffset Tz.ny + tzOffset Tz.ny = w := by ring
  rw [hw]

/-! Claim theorems. -/

/-- C1: the claim says nearest_price returns the close at the maximal
timestamp at most the target (or NaN) for every target date; in fact a
datetime.date target raises AttributeError (to_ny_aware reads .tz on the
plain datetime built at market.py line 61), while the claimed lookup
behavior exists only for pd.Timestamp targets — here the same series under
an NY Timestamp target between its points returns the earlier close. -/
theorem c1_nearest_price_date_target_raises :
    nearest_price ⟨[(0, some 100), (5, some 105)], true⟩ (.pydate ⟨2025, 1, 2⟩) =
      .error "AttributeError" ∧
    nearest_price ⟨[(0, some 100), (5, some 105)], true⟩ (.ts ⟨3, some Tz.ny⟩) =
      .ok (some 100) :=
  ⟨rfl, rfl⟩

/-- C2: the claim says a period value is NaN exactly in the missing/zero-ref
cases and that no exception is raised; in fact compute_changes raises
AttributeError at market.py line 124 (to_ny_aware on date.today()) on every
invocation, before any row or period value exists. -/
theorem c2_compute_changes_always_raises :
    compute_changes ⟨2025, 10, 12⟩ (fun _ => none) = .error "AttributeError" :=
  rfl

/-- C3: the claim is about the period values of compute_changes rows; in
fact even with a fully valid fetched series the function raises
AttributeError at market.py line 124 and never produces a row, so no period
value is ever computed. -/
theorem c3_compute_changes_no_rows :
    compute_changes ⟨2025, 10, 12⟩
        (fun tk =>
          if tk = "SPY" then some ⟨[(0, some 100), (5, some 105)], true⟩ else none) =
      .error "AttributeError" :=
  rfl

/-- C4: the claim says the six NY-normalized anchors are produced for every
today; in fact line 124 raises AttributeError before any anchor is bound,
and each per-anchor normalization (lines 127-132) would raise the same way —
while the quarter_start arithmetic itself does follow the claimed
(month-1) div 3 rule (February to January 1, November to October 1). -/
theorem c4_anchors_never_produced :
    compute_changes ⟨2025, 11, 15⟩ (fun _ => none) = .error "AttributeError" ∧
    to_ny_aware (.pydate (subDays ⟨2025, 11, 15⟩ 1)) = .error "AttributeError" ∧
    quarter_start ⟨2025, 2, 14⟩ = ⟨2025, 1, 1⟩ ∧
    quarter_start ⟨2024, 11, 3⟩ = ⟨2024, 10, 1⟩ :=
  ⟨rfl, rfl, by decide, by decide⟩

/-- C5: the claim says two runs on identical inputs yield identical period
percentages for every instrument and period; in fact both runs raise
AttributeError at market.py line 124 and yield no percentages at all —
shown here for the same today with an empty and with a populated history. -/
theorem c5_no_percentages_two_runs :
    compute_changes ⟨2025, 3, 3⟩ (fun _ => none) = .error "AttributeError" ∧
    compute_changes ⟨2025, 3, 3⟩
        (fun tk => if tk = "QQQ" then some ⟨[(1, some 50)], true⟩ else none) =
      .error "AttributeError" :=
  ⟨rfl, rfl⟩

/-- C6: the claim says an anchor strictly after the series' last timestamp
resolves to the latest point, yielding a 0.0 percentage; in fact no anchor
ever reaches nearest_price (compute_changes raises first), and a date-typed
anchor raises AttributeError rather than resolving — the clamp-to-latest
behavior exists only for pd.Timestamp targets, as the second conjunct
shows on a direct call. -/
theorem c6_future_anchor_date_raises :
    nearest_price ⟨[(0, some 100), (5, some 105)], true⟩ (.pydate ⟨2025, 6, 1⟩) =
      .error "AttributeError" ∧
    nearest_price ⟨[(0, some 100), (5, some 105)], true⟩ (.ts ⟨99, some Tz.ny⟩) =
      .ok (some 105) :=
  ⟨rfl, rfl⟩

/-- C7: the claim says the build produces exactly one record per configured
instrument, including failed ones; in fact fetch_history raises
AttributeError at market.py line 73 (to_ny_aware on the date-typed
start_date) before its per-ticker loop, and compute_changes raises at line
124, so zero records are ever produced — even when every fetch succeeds. -/
theorem c7_fetch_and_build_raise :
    fetch_history (fun _ => .ok ⟨[(0, some 1)], true⟩) ⟨2024, 9, 8⟩ ⟨2025, 10, 12⟩
        (ASSETS.map Prod.snd) =
      .error "AttributeError" ∧
    compute_changes ⟨2025, 7, 4⟩ (fun _ => none) = .error "AttributeError" :=
  ⟨rfl, rfl⟩

/-- C8 counterexample: for the priority list naming the second configured
asset before the first, the claim demands a snapshot ordered with those two
first; the build instead raises AttributeError at market.py line 124 and
produces no ordered output at all — the second conjunct records the order
the claim demanded. -/
theorem c8_counterexample :
    compute_changes ⟨2025, 1, 15⟩ (fun _ => none) = .error "AttributeError" ∧
    prioritySort ["2年美債收益率", "美元指數"] (ASSETS.map Prod.fst) =
      "2年美債收益率" :: "美元指數" :: (ASSETS.map Prod.fst).drop 2 :=
  ⟨rfl, by decide⟩

/-- C8 amended: compute_changes takes no caller-supplied priority list, and
as written it never produces an ordered snapshot at all: every invocation
raises AttributeError (to_ny_aware reads .tz on the plain datetime built
from date.today()) before any row is built. -/
theorem c8_no_priority_no_output (today : Date)
    (hist_map : String → Option DataFrame) :
    compute_changes today hist_map = .error "AttributeError" :=
  rfl

/-- C9: to_ny_aware maps None, a string parsing to NaT, and the NaT scalar to
None instead of raising (these paths return before any .tz access), and
nearest_price returns the NaN sentinel, not an error, whenever its
normalized target is None. -/
theorem c9_missing_inputs_safe :
    to_ny_aware .pynone = .ok none ∧
    to_ny_aware (.str none) = .ok none ∧
    to_ny_aware .nat_ = .ok none ∧
    ∀ (hist : DataFrame) (target_date : Dt),
      to_ny_aware target_date = .ok none → nearest_price hist target_date = .ok none := by
  refine ⟨rfl, rfl, rfl, ?_⟩
  intro hist td h
  unfold nearest_price
  by_cases he : hist.rows = []
  · rw [if_pos he]
  · rw [if_neg he, h]

/-- C9 witness: a None target on a non-empty series yields the sentinel. -/
theorem c9_witness :
    nearest_price ⟨[(0, some 100)], true⟩ .pynone = .ok none :=
  c9_missing_inputs_safe.2.2.2 ⟨[(0, some 100)], true⟩ .pynone rfl

/-- C10: to_ny_aware is idempotent: whenever it returns an aware timestamp,
re-normalizing that timestamp returns the very same timestamp (same instant,
same America/New_York zone). -/
theorem c10_to_ny_aware_idempotent (d : Dt) (t : PdTimestamp)
    (h : to_ny_aware d = .ok (some t)) : to_ny_aware (.ts t) = .ok (some t) := by
  have htz := to_ny_aware_tz h
  show Except.ok (some (normalizeNY t)) = .ok (some t)
  rw [normalizeNY_of_ny htz]

/-- C10 witness: normalizing an already NY-aware timestamp is the identity. -/
theorem c10_witness :
    to_ny_aware (.ts ⟨7, some Tz.ny⟩) = .ok (some ⟨7, some Tz.ny⟩) :=
  c10_to_ny_aware_idempotent (.ts ⟨7, some Tz.ny⟩) ⟨7, some Tz.ny⟩ rfl

end Heatmap
